import Mathlib

/-!
# The failsafe circuit breaker of replicator (`replicator/failsafe.go`)

A shallow embedding of `FailsafeCheck`, `SetFailsafeMode` and
`sendFailsafeNotification`.

The Go functions act on a `*structs.State` and talk to three kinds of
collaborators: the notification backends, the Consul state store and the
logger.  The embedding passes the daemon state explicitly and threads a value
of `Sys W` through every call: `W` is the (arbitrary) state of the outside
world, on which the backends and the store act as arbitrary functions, and
`trace` is the list of calls made to the collaborators so far, oldest first.
-/

namespace notifier

/-- The payload handed to every backend (`notifier.FailureMessage`). -/
structure FailureMessage where
  AlertUID : String
  ClusterIdentifier : String
  Reason : String
  FailedResource : String
  deriving DecidableEq, Repr

/-- Modelled from the spec: the interface `notifier.Notifier`, declared outside
`failsafe.go`.  It has one operation, `SendNotification(FailureMessage)`, with
no return value; here it is an arbitrary function on the outside world.
`Name` stands for the identity of the backend object. -/
structure Notifier (W : Type) where
  Name : String
  SendNotification : FailureMessage → W → W

end notifier

namespace structs

/-- Modelled from the spec: the fields of `structs.State` (DaemonState), a type
declared outside `failsafe.go`. -/
structure State where
  FailsafeMode : Bool
  FailsafeModeAdmin : Bool
  LastFailedNode : String
  NodeFailureCount : Int
  deriving DecidableEq, Repr

/-- Modelled from the spec: the field of `structs.ScalingState` that
`failsafe.go` writes; time is a number of clock ticks. -/
structure ScalingState where
  LastNotificationEvent : Nat
  deriving DecidableEq, Repr

/-- Modelled from the spec: `config.ClusterScaling`, of which only the retry
threshold is named by `failsafe.go`. -/
structure ClusterScaling where
  RetryThreshold : Int
  deriving DecidableEq, Repr

/-- Modelled from the spec: `config.Notification`, the alert identifiers and the
ordered list of configured backends. -/
structure Notification (W : Type) where
  ClusterScalingUID : String
  ClusterIdentifier : String
  Notifiers : List (notifier.Notifier W)

/-- The part of `structs.Config` that is plain configuration: everything but
the handle to the state store. -/
structure Settings (W : Type) where
  ClusterScaling : ClusterScaling
  Notification : Notification W

/-- Modelled from the spec: the state store client, one operation
`WriteState(config, state) → error`.  It is an arbitrary function of the
configuration, of the snapshot it is handed and of the outside world; `none`
is Go's `nil` error and `some e` an error whose text is `e`.  The store reads
the snapshot and does not alter the caller's state. -/
structure ConsulClient (W : Type) where
  WriteState : Settings W → State → W → Option String × W

/-- Modelled from the spec: `structs.Config`, the settings together with the
state store client. -/
structure Config (W : Type) extends Settings W where
  ConsulClient : ConsulClient W

end structs

namespace logging

/-- The three severities used by `failsafe.go`. -/
inductive Level where
  | debug
  | info
  | warning
  deriving DecidableEq, Repr

end logging

/-- One call made to a collaborator. -/
inductive Event (W : Type) where
  | send (n : notifier.Notifier W) (message : notifier.FailureMessage)
  | write (state : structs.State) (err : Option String)
  | log (level : logging.Level) (text : String)

/-- The outside world and the calls made so far, oldest first. -/
structure Sys (W : Type) where
  world : W
  trace : List (Event W)

namespace Event

/-- Whether the event is a `SendNotification` call. -/
def isSend {W : Type} : Event W → Bool
  | send _ _ => true
  | _ => false

/-- Whether the event is a `WriteState` call. -/
def isWrite {W : Type} : Event W → Bool
  | write _ _ => true
  | _ => false

/-- Whether the event is a log line. -/
def isLog {W : Type} : Event W → Bool
  | log _ _ => true
  | _ => false

end Event

/-- The `SendNotification` calls of a list of events, in order. -/
def sendCalls {W : Type} (t : List (Event W)) : List (Event W) :=
  t.filter Event.isSend

/-- The `WriteState` calls of a list of events, in order. -/
def writeCalls {W : Type} (t : List (Event W)) : List (Event W) :=
  t.filter Event.isWrite

/-- The log lines of a list of events, in order. -/
def logLines {W : Type} (t : List (Event W)) : List (Event W) :=
  t.filter Event.isLog

/-- The events recorded between two points of a run. -/
def emitted {W : Type} (before after : Sys W) : List (Event W) :=
  after.trace.drop before.trace.length

namespace logging

/-- Records one log line; `logging.Debug`. -/
def Debug {W : Type} (text : String) (sys : Sys W) : Sys W :=
  { sys with trace := sys.trace ++ [Event.log Level.debug text] }

/-- Records one log line; `logging.Info`. -/
def Info {W : Type} (text : String) (sys : Sys W) : Sys W :=
  { sys with trace := sys.trace ++ [Event.log Level.info text] }

/-- Records one log line; `logging.Warning`. -/
def Warning {W : Type} (text : String) (sys : Sys W) : Sys W :=
  { sys with trace := sys.trace ++ [Event.log Level.warning text] }

end logging

namespace replicator

/-- The call `not.SendNotification(message)`: the backend acts on the world and
the call is recorded. -/
def callSendNotification {W : Type} (n : notifier.Notifier W)
    (message : notifier.FailureMessage) (sys : Sys W) : Sys W :=
  { world := n.SendNotification message sys.world
    trace := sys.trace ++ [Event.send n message] }

/-- The call `config.ConsulClient.WriteState(config, state)`: the store acts on
the world, the call is recorded with its result, and the result is returned. -/
def callWriteState {W : Type} (config : structs.Config W) (state : structs.State)
    (sys : Sys W) : Option String × Sys W :=
  let r := config.ConsulClient.WriteState config.toSettings state sys.world
  (r.1, { world := r.2, trace := sys.trace ++ [Event.write state r.1] })

def clusterType : String := "worker_pool"
def jobType : String := "job_group"
def clusterMessage : String := "cluster_failsafe_mode"
def jobMessage : String := "job_group_failsafe_mode"

/-- The function `SetFailsafeMode` toggles the failsafe mode lock.  It returns
the error, the state as the caller sees it afterwards, and the system. -/
def SetFailsafeMode {W : Type} (state : structs.State) (config : structs.Config W)
    (enabled : Bool) (sys : Sys W) : Option String × structs.State × Sys W :=
  let sys1 : Sys W :=
    match enabled with
    | true =>
      let sysA : Sys W :=
        if !state.FailsafeMode then
          if config.Notification.Notifiers.length > 0 then
            let message : notifier.FailureMessage :=
              { AlertUID := config.Notification.ClusterScalingUID
                ClusterIdentifier := config.Notification.ClusterIdentifier
                Reason := clusterMessage
                FailedResource := state.LastFailedNode }
            config.Notification.Notifiers.foldl
              (fun s n => callSendNotification n message s) sys
          else sys
        else sys
      if !state.FailsafeModeAdmin then
        logging.Warning ("core/failsafe: Replicator has been placed in failsafe " ++
          "mode. No scaling evaluations or operations will be permitted from " ++
          "any running copies of Replicator.") sysA
      else sysA
    | false =>
      if !state.FailsafeModeAdmin then
        logging.Info "core/failsafe: exiting failsafe mode" sys
      else sys
  let state1 : structs.State := { state with FailsafeMode := enabled }
  let r := callWriteState config state1 sys1
  match r.1 with
  | some err =>
    (some ("core/failsafe: an attempt to update the persistent " ++
      "state tracking information failed: " ++ err), state1, r.2)
  | none => (none, state1, r.2)

/-- The function `FailsafeCheck`, the check of the circuit breaker.  It returns
`passing`, the state as the caller sees it afterwards, and the system. -/
def FailsafeCheck {W : Type} (state : structs.State) (config : structs.Config W)
    (sys : Sys W) : Bool × structs.State × Sys W :=
  let passing : Bool := true
  if state.FailsafeMode then
    (false, state, sys)
  else
    match passing with
    | true =>
      (passing, state,
        logging.Debug ("core/failsafe: the failsafe check passes, scaling " ++
          "evaluations and operations will be permitted.") sys)
    | false =>
      let r := SetFailsafeMode state config true sys
      (passing, r.2.1, r.2.2)

/-- The function `sendFailsafeNotification`; `now` reads the clock
(`time.Now()`) off the outside world. -/
def sendFailsafeNotification {W : Type} (resourceID resourceType uid : String)
    (state : structs.ScalingState) (config : structs.Config W) (now : W → Nat)
    (sys : Sys W) : structs.ScalingState × Sys W :=
  let reason : String :=
    if resourceType = clusterType then clusterMessage
    else if resourceType = jobType then jobMessage
    else ""
  let sys1 : Sys W :=
    if config.Notification.Notifiers.length > 0 then
      let message : notifier.FailureMessage :=
        { AlertUID := uid
          ClusterIdentifier := config.Notification.ClusterIdentifier
          Reason := reason
          FailedResource := resourceID }
      config.Notification.Notifiers.foldl
        (fun s n => callSendNotification n message s) sys
    else sys
  ({ state with LastNotificationEvent := now sys1.world }, sys1)

end replicator

/-! ## What a call of `SetFailsafeMode` does, step by step -/

namespace replicator

/-- The message built by `SetFailsafeMode` for a trip. -/
def tripMessage {W : Type} (state : structs.State) (config : structs.Config W) :
    notifier.FailureMessage :=
  { AlertUID := config.Notification.ClusterScalingUID
    ClusterIdentifier := config.Notification.ClusterIdentifier
    Reason := "cluster_failsafe_mode"
    FailedResource := state.LastFailedNode }

/-- The world after each backend of the list, in order, was sent `message`. -/
def worldAfterSends {W : Type} (ns : List (notifier.Notifier W))
    (message : notifier.FailureMessage) (w : W) : W :=
  ns.foldl (fun w n => n.SendNotification message w) w

/-- The world in which `SetFailsafeMode` calls the store. -/
def worldAtWrite {W : Type} (state : structs.State) (config : structs.Config W)
    (enabled : Bool) (w : W) : W :=
  if enabled && !state.FailsafeMode then
    worldAfterSends config.Notification.Notifiers (tripMessage state config) w
  else w

/-- The notifier calls of one `SetFailsafeMode` call. -/
def tripSends {W : Type} (state : structs.State) (config : structs.Config W)
    (enabled : Bool) : List (Event W) :=
  if enabled && !state.FailsafeMode then
    config.Notification.Notifiers.map (fun n => Event.send n (tripMessage state config))
  else []

/-- The log lines of one `SetFailsafeMode` call. -/
def modeLogs {W : Type} (state : structs.State) (enabled : Bool) : List (Event W) :=
  if state.FailsafeModeAdmin then []
  else if enabled then
    [Event.log logging.Level.warning
      "core/failsafe: Replicator has been placed in failsafe mode. No scaling evaluations or operations will be permitted from any running copies of Replicator."]
  else [Event.log logging.Level.info "core/failsafe: exiting failsafe mode"]

/-- The text put in front of the store's error. -/
def writeContext : String :=
  "core/failsafe: an attempt to update the persistent state tracking information failed: "

/-- The reason `sendFailsafeNotification` resolves for a resource type. -/
def notifyReason (resourceType : String) : String :=
  if resourceType = "worker_pool" then "cluster_failsafe_mode"
  else if resourceType = "job_group" then "job_group_failsafe_mode"
  else ""

/-- The message built by `sendFailsafeNotification`. -/
def notifyMessage {W : Type} (resourceID resourceType uid : String)
    (config : structs.Config W) : notifier.FailureMessage :=
  { AlertUID := uid
    ClusterIdentifier := config.Notification.ClusterIdentifier
    Reason := notifyReason resourceType
    FailedResource := resourceID }

/-! ### Sequences of calls on one daemon -/

/-- What one daemon process holds: its breaker state, the scaling state of a
resource, and the system around it. -/
structure Daemon (W : Type) where
  state : structs.State
  scaling : structs.ScalingState
  sys : Sys W

/-- One call of a function of `failsafe.go`, with the arguments that are not
the daemon's own state. -/
inductive Call (W : Type) where
  | failsafeCheck (config : structs.Config W)
  | setFailsafeMode (config : structs.Config W) (enabled : Bool)
  | notify (resourceID resourceType uid : String) (config : structs.Config W)
      (now : W → Nat)

/-- Whether the call is `SetFailsafeMode` with `enabled = false`. -/
def Call.isReset {W : Type} : Call W → Bool
  | Call.setFailsafeMode _ false => true
  | _ => false

/-- The daemon after one call.  `FailsafeCheck` and `SetFailsafeMode` are
handed the breaker state, `sendFailsafeNotification` the scaling state. -/
def Call.run {W : Type} (c : Call W) (d : Daemon W) : Daemon W :=
  match c with
  | Call.failsafeCheck config =>
    let r := FailsafeCheck d.state config d.sys
    { d with state := r.2.1, sys := r.2.2 }
  | Call.setFailsafeMode config enabled =>
    let r := SetFailsafeMode d.state config enabled d.sys
    { d with state := r.2.1, sys := r.2.2 }
  | Call.notify resourceID resourceType uid config now =>
    let r := sendFailsafeNotification resourceID resourceType uid d.scaling config now d.sys
    { d with scaling := r.1, sys := r.2 }

/-- The daemon after a sequence of calls, made one after the other. -/
def runCalls {W : Type} (calls : List (Call W)) (d : Daemon W) : Daemon W :=
  calls.foldl (fun d c => c.run d) d

/-! ### A concrete system, used to instantiate the theorems -/

/-- A small outside world: what the store holds and what was delivered. -/
structure DemoWorld where
  stored : Option structs.State
  sent : List (String × notifier.FailureMessage)
  deriving DecidableEq, Repr

/-- A backend that records the delivery under its name. -/
def demoNotifier (name : String) : notifier.Notifier DemoWorld :=
  { Name := name
    SendNotification := fun m w => { w with sent := w.sent ++ [(name, m)] } }

/-- A store whose writes succeed and that keeps the last written snapshot. -/
def keepingStore : structs.ConsulClient DemoWorld :=
  { WriteState := fun _ s w => (none, { w with stored := some s }) }

/-- A store whose writes fail. -/
def failingStore : structs.ConsulClient DemoWorld :=
  { WriteState := fun _ _ w => (some "connection refused", w) }

/-- A configuration with the named backends and the given store. -/
def demoConfig (names : List String) (store : structs.ConsulClient DemoWorld) :
    structs.Config DemoWorld :=
  { ClusterScaling := { RetryThreshold := 3 }
    Notification :=
      { ClusterScalingUID := "uid-cluster"
        ClusterIdentifier := "cluster-a"
        Notifiers := names.map demoNotifier }
    ConsulClient := store }

/-- A daemon state with five recorded node failures. -/
def demoState (tripped : Bool) : structs.State :=
  { FailsafeMode := tripped
    FailsafeModeAdmin := false
    LastFailedNode := "node-7"
    NodeFailureCount := 5 }

/-- A system in which nothing has happened yet. -/
def demoSys : Sys DemoWorld :=
  { world := { stored := none, sent := [] }, trace := [] }

/-- A clock that starts at 100 and advances by one tick per delivery. -/
def demoClock (w : DemoWorld) : Nat :=
  100 + w.sent.length

/-- A store that refuses the snapshots taken by the operator tool. -/
def adminRefusingStore : structs.ConsulClient DemoWorld :=
  { WriteState := fun _ s w =>
      if s.FailsafeModeAdmin then (some "operator snapshot refused", w)
      else (none, { w with stored := some s }) }

/-- A daemon in which nothing has happened yet. -/
def demoDaemon (tripped : Bool) : Daemon DemoWorld :=
  { state := demoState tripped
    scaling := { LastNotificationEvent := 0 }
    sys := demoSys }

theorem foldl_callSendNotification {W : Type} (ns : List (notifier.Notifier W))
    (message : notifier.FailureMessage) (sys : Sys W) :
    ns.foldl (fun s n => callSendNotification n message s) sys =
      { world := worldAfterSends ns message sys.world
        trace := sys.trace ++ ns.map (fun n => Event.send n message) } := by
  induction ns generalizing sys with
  | nil => simp [worldAfterSends]
  | cons n ns ih =>
    rw [List.foldl_cons, ih]
    simp [worldAfterSends, callSendNotification]

theorem emitted_append {W : Type} (sys : Sys W) (w : W) (evs : List (Event W)) :
    emitted sys { world := w, trace := sys.trace ++ evs } = evs := by
  simp [emitted]

theorem SetFailsafeMode_eq {W : Type} (state : structs.State) (config : structs.Config W)
    (enabled : Bool) (sys : Sys W) :
    SetFailsafeMode state config enabled sys =
      ((config.ConsulClient.WriteState config.toSettings
          { state with FailsafeMode := enabled }
          (worldAtWrite state config enabled sys.world)).1.map (fun e => writeContext ++ e),
        { state with FailsafeMode := enabled },
        { world := (config.ConsulClient.WriteState config.toSettings
            { state with FailsafeMode := enabled }
            (worldAtWrite state config enabled sys.world)).2
          trace := sys.trace ++ (tripSends state config enabled ++ modeLogs state enabled ++
            [Event.write { state with FailsafeMode := enabled }
              (config.ConsulClient.WriteState config.toSettings
                { state with FailsafeMode := enabled }
                (worldAtWrite state config enabled sys.world)).1]) }) := by
  have hstr : ("core/failsafe: an attempt to update the persistent " ++
      "state tracking information failed: ") = writeContext := by decide
  have hwarn : ("core/failsafe: Replicator has been placed in failsafe " ++
      "mode. No scaling evaluations or operations will be permitted from " ++
      "any running copies of Replicator.") =
      "core/failsafe: Replicator has been placed in failsafe mode. No scaling evaluations or operations will be permitted from any running copies of Replicator." := by
    decide
  have hguard : ∀ (m : notifier.FailureMessage) (g : notifier.Notifier W → Event W),
      (if config.Notification.Notifiers.length > 0 then
        ({ world := worldAfterSends config.Notification.Notifiers m sys.world
           trace := sys.trace ++ config.Notification.Notifiers.map g } : Sys W) else sys) =
      { world := worldAfterSends config.Notification.Notifiers m sys.world
        trace := sys.trace ++ config.Notification.Notifiers.map g } := by
    intro m g
    cases config.Notification.Notifiers <;> simp [worldAfterSends]
  unfold SetFailsafeMode
  simp only [hstr, hwarn, clusterMessage, foldl_callSendNotification, hguard]
  cases enabled <;> cases hm : state.FailsafeMode <;> cases ha : state.FailsafeModeAdmin <;>
    simp only [callWriteState, worldAtWrite, tripSends, modeLogs, logging.Warning, logging.Info,
      tripMessage, hm, ha, Bool.not_true, Bool.not_false, Bool.and_true, Bool.and_false,
      Bool.true_and, Bool.false_and, if_true, if_false, Bool.false_eq_true, List.nil_append,
      List.append_nil, List.append_assoc, List.singleton_append] <;>
    cases (config.ConsulClient.WriteState config.toSettings _ _).1 <;> simp

theorem sendCalls_tripSends {W : Type} (state : structs.State) (config : structs.Config W)
    (enabled : Bool) :
    sendCalls (tripSends state config enabled) = tripSends state config enabled := by
  unfold sendCalls tripSends
  split
  · rw [List.filter_eq_self]
    intro a ha
    obtain ⟨n, _, rfl⟩ := List.mem_map.mp ha
    rfl
  · rfl

theorem writeCalls_tripSends {W : Type} (state : structs.State) (config : structs.Config W)
    (enabled : Bool) : writeCalls (tripSends state config enabled) = [] := by
  unfold writeCalls tripSends
  split
  · rw [List.filter_eq_nil_iff]
    intro a ha
    obtain ⟨n, _, rfl⟩ := List.mem_map.mp ha
    simp [Event.isWrite]
  · rfl

theorem sendCalls_modeLogs {W : Type} (state : structs.State) (enabled : Bool) :
    sendCalls (modeLogs state enabled : List (Event W)) = [] := by
  unfold sendCalls modeLogs
  split
  · rfl
  · split <;> rfl

theorem writeCalls_modeLogs {W : Type} (state : structs.State) (enabled : Bool) :
    writeCalls (modeLogs state enabled : List (Event W)) = [] := by
  unfold writeCalls modeLogs
  split
  · rfl
  · split <;> rfl

theorem emitted_SetFailsafeMode {W : Type} (state : structs.State) (config : structs.Config W)
    (enabled : Bool) (sys : Sys W) :
    emitted sys (SetFailsafeMode state config enabled sys).2.2 =
      tripSends state config enabled ++ modeLogs state enabled ++
        [Event.write { state with FailsafeMode := enabled }
          (config.ConsulClient.WriteState config.toSettings
            { state with FailsafeMode := enabled }
            (worldAtWrite state config enabled sys.world)).1] := by
  rw [SetFailsafeMode_eq]
  exact emitted_append _ _ _

theorem sendCalls_emitted_SetFailsafeMode {W : Type} (state : structs.State)
    (config : structs.Config W) (enabled : Bool) (sys : Sys W) :
    sendCalls (emitted sys (SetFailsafeMode state config enabled sys).2.2) =
      tripSends state config enabled := by
  rw [emitted_SetFailsafeMode]
  have h1 := sendCalls_tripSends state config enabled
  have h2 := sendCalls_modeLogs (W := W) state enabled
  unfold sendCalls at *
  rw [List.filter_append, List.filter_append, h1, h2]
  simp [Event.isSend]

theorem writeCalls_emitted_SetFailsafeMode {W : Type} (state : structs.State)
    (config : structs.Config W) (enabled : Bool) (sys : Sys W) :
    writeCalls (emitted sys (SetFailsafeMode state config enabled sys).2.2) =
      [Event.write { state with FailsafeMode := enabled }
        (config.ConsulClient.WriteState config.toSettings
          { state with FailsafeMode := enabled }
          (worldAtWrite state config enabled sys.world)).1] := by
  rw [emitted_SetFailsafeMode]
  have h1 := writeCalls_tripSends state config enabled
  have h2 := writeCalls_modeLogs (W := W) state enabled
  unfold writeCalls at *
  rw [List.filter_append, List.filter_append, h1, h2]
  simp [Event.isWrite]

theorem mem_emitted_SetFailsafeMode_write {W : Type} (state : structs.State)
    (config : structs.Config W) (enabled : Bool) (sys : Sys W) (snap : structs.State)
    (r : Option String)
    (h : Event.write snap r ∈ emitted sys (SetFailsafeMode state config enabled sys).2.2) :
    snap = { state with FailsafeMode := enabled } ∧
      r = (config.ConsulClient.WriteState config.toSettings
        { state with FailsafeMode := enabled }
        (worldAtWrite state config enabled sys.world)).1 := by
  have hw : Event.write snap r ∈
      writeCalls (emitted sys (SetFailsafeMode state config enabled sys).2.2) := by
    unfold writeCalls
    exact List.mem_filter.mpr ⟨h, rfl⟩
  rw [writeCalls_emitted_SetFailsafeMode] at hw
  simpa using hw

theorem SetFailsafeMode_err {W : Type} (state : structs.State) (config : structs.Config W)
    (enabled : Bool) (sys : Sys W) :
    (SetFailsafeMode state config enabled sys).1 =
      (config.ConsulClient.WriteState config.toSettings
        { state with FailsafeMode := enabled }
        (worldAtWrite state config enabled sys.world)).1.map (fun e => writeContext ++ e) := by
  rw [SetFailsafeMode_eq]

theorem SetFailsafeMode_state {W : Type} (state : structs.State) (config : structs.Config W)
    (enabled : Bool) (sys : Sys W) :
    (SetFailsafeMode state config enabled sys).2.1 = { state with FailsafeMode := enabled } := by
  rw [SetFailsafeMode_eq]

theorem SetFailsafeMode_world {W : Type} (state : structs.State) (config : structs.Config W)
    (enabled : Bool) (sys : Sys W) :
    (SetFailsafeMode state config enabled sys).2.2.world =
      (config.ConsulClient.WriteState config.toSettings
        { state with FailsafeMode := enabled }
        (worldAtWrite state config enabled sys.world)).2 := by
  rw [SetFailsafeMode_eq]

/-! ## The claims -/

/-- C1: when the breaker is already tripped (`FailsafeMode = true`), for every
configuration `FailsafeCheck` returns `false`, makes no `SendNotification` call
and no `WriteState` call, and leaves the state (and the whole system)
unchanged. -/
theorem FailsafeCheck_tripped {W : Type} (state : structs.State)
    (config : structs.Config W) (sys : Sys W) (h : state.FailsafeMode = true) :
    (FailsafeCheck state config sys).1 = false ∧
      (FailsafeCheck state config sys).2.1 = state ∧
      (FailsafeCheck state config sys).2.2 = sys ∧
      sendCalls (emitted sys (FailsafeCheck state config sys).2.2) = [] ∧
      writeCalls (emitted sys (FailsafeCheck state config sys).2.2) = [] := by
  have hc : FailsafeCheck state config sys = (false, state, sys) := by
    simp [FailsafeCheck, h]
  rw [hc]
  simp [emitted, sendCalls, writeCalls]

theorem FailsafeCheck_tripped_witness :
    (demoState true).FailsafeMode = true ∧
      (FailsafeCheck (demoState true) (demoConfig ["pager", "chat"] failingStore) demoSys).1
        = false ∧
      (FailsafeCheck (demoState true) (demoConfig ["pager", "chat"] failingStore) demoSys).2.1
        = demoState true ∧
      (FailsafeCheck (demoState true) (demoConfig ["pager", "chat"] failingStore) demoSys).2.2
        = demoSys ∧
      sendCalls (emitted demoSys
        (FailsafeCheck (demoState true) (demoConfig ["pager", "chat"] failingStore)
          demoSys).2.2) = [] ∧
      writeCalls (emitted demoSys
        (FailsafeCheck (demoState true) (demoConfig ["pager", "chat"] failingStore)
          demoSys).2.2) = [] :=
  ⟨rfl, FailsafeCheck_tripped (demoState true) (demoConfig ["pager", "chat"] failingStore)
    demoSys rfl⟩

/-- C2: when the breaker is closed (`FailsafeMode = false`), for every
configuration and whatever `NodeFailureCount` and `RetryThreshold` are,
`FailsafeCheck` returns `true`, leaves the state and the outside world
unchanged, and its only effect is one debug log line: no `SendNotification`
call, no `WriteState` call, and the events of no `SetFailsafeMode` call occur
among its events. -/
theorem FailsafeCheck_closed {W : Type} (state : structs.State)
    (config : structs.Config W) (sys : Sys W) (h : state.FailsafeMode = false) :
    (FailsafeCheck state config sys).1 = true ∧
      (FailsafeCheck state config sys).2.1 = state ∧
      (FailsafeCheck state config sys).2.2.world = sys.world ∧
      emitted sys (FailsafeCheck state config sys).2.2 =
        [Event.log logging.Level.debug
          "core/failsafe: the failsafe check passes, scaling evaluations and operations will be permitted."] ∧
      sendCalls (emitted sys (FailsafeCheck state config sys).2.2) = [] ∧
      writeCalls (emitted sys (FailsafeCheck state config sys).2.2) = [] ∧
      ∀ (state' : structs.State) (config' : structs.Config W) (enabled : Bool) (sys' : Sys W),
        ¬ (emitted sys' (SetFailsafeMode state' config' enabled sys').2.2 <:+:
          emitted sys (FailsafeCheck state config sys).2.2) := by
  have hstr : ("core/failsafe: the failsafe check passes, scaling " ++
      "evaluations and operations will be permitted.") =
      "core/failsafe: the failsafe check passes, scaling evaluations and operations will be permitted." := by
    decide
  have hc : FailsafeCheck state config sys = (true, state,
      { world := sys.world
        trace := sys.trace ++ [Event.log logging.Level.debug
          "core/failsafe: the failsafe check passes, scaling evaluations and operations will be permitted."] }) := by
    simp [FailsafeCheck, h, logging.Debug, hstr]
  rw [hc]
  rw [emitted_append]
  refine ⟨rfl, rfl, rfl, rfl, rfl, rfl, ?_⟩
  intro state' config' enabled sys' hin
  have hmem : Event.write { state' with FailsafeMode := enabled }
      (config'.ConsulClient.WriteState config'.toSettings
        { state' with FailsafeMode := enabled }
        (worldAtWrite state' config' enabled sys'.world)).1 ∈
      emitted sys' (SetFailsafeMode state' config' enabled sys').2.2 := by
    rw [emitted_SetFailsafeMode]
    simp
  have := hin.subset hmem
  simp at this

theorem FailsafeCheck_closed_witness :
    (demoState false).FailsafeMode = false ∧
      (demoConfig ["pager"] keepingStore).ClusterScaling.RetryThreshold
        ≤ (demoState false).NodeFailureCount ∧
      (FailsafeCheck (demoState false) (demoConfig ["pager"] keepingStore) demoSys).1 = true ∧
      (FailsafeCheck (demoState false) (demoConfig ["pager"] keepingStore) demoSys).2.1
        = demoState false ∧
      writeCalls (emitted demoSys
        (FailsafeCheck (demoState false) (demoConfig ["pager"] keepingStore) demoSys).2.2)
        = [] :=
  ⟨rfl, by decide,
    (FailsafeCheck_closed (demoState false) (demoConfig ["pager"] keepingStore) demoSys rfl).1,
    (FailsafeCheck_closed (demoState false) (demoConfig ["pager"] keepingStore)
      demoSys rfl).2.1,
    (FailsafeCheck_closed (demoState false) (demoConfig ["pager"] keepingStore)
      demoSys rfl).2.2.2.2.2.1⟩

/-- C3: on a closed breaker (`FailsafeMode = false`) and with a non-empty
notifier list, `SetFailsafeMode(state, config, true)` calls `SendNotification`
once on each configured notifier, in list order, every time with the message
whose `AlertUID` is `config.Notification.ClusterScalingUID`, whose
`ClusterIdentifier` is `config.Notification.ClusterIdentifier`, whose `Reason`
is `"cluster_failsafe_mode"` and whose `FailedResource` is
`state.LastFailedNode`; and if its store write succeeds, it returns `nil` and
`FailsafeMode` is `true` afterwards. -/
theorem SetFailsafeMode_trip_notifies {W : Type} (state : structs.State)
    (config : structs.Config W) (sys : Sys W) (h : state.FailsafeMode = false)
    (hn : config.Notification.Notifiers ≠ []) :
    sendCalls (emitted sys (SetFailsafeMode state config true sys).2.2) =
        config.Notification.Notifiers.map (fun n => Event.send n
          { AlertUID := config.Notification.ClusterScalingUID
            ClusterIdentifier := config.Notification.ClusterIdentifier
            Reason := "cluster_failsafe_mode"
            FailedResource := state.LastFailedNode }) ∧
      ∀ snap : structs.State,
        Event.write snap none ∈ emitted sys (SetFailsafeMode state config true sys).2.2 →
          (SetFailsafeMode state config true sys).1 = none ∧
            (SetFailsafeMode state config true sys).2.1.FailsafeMode = true := by
  have _ := hn
  refine ⟨?_, ?_⟩
  · rw [sendCalls_emitted_SetFailsafeMode]
    simp [tripSends, h, tripMessage]
  · intro snap hmem
    obtain ⟨_, hr⟩ := mem_emitted_SetFailsafeMode_write state config true sys snap none hmem
    rw [SetFailsafeMode_err, SetFailsafeMode_state, ← hr]
    exact ⟨rfl, rfl⟩

theorem SetFailsafeMode_trip_notifies_witness :
    (demoState false).FailsafeMode = false ∧
      (demoConfig ["pager", "chat"] keepingStore).Notification.Notifiers ≠ [] ∧
      sendCalls (emitted demoSys
        (SetFailsafeMode (demoState false) (demoConfig ["pager", "chat"] keepingStore) true
          demoSys).2.2) =
        [Event.send (demoNotifier "pager")
            { AlertUID := "uid-cluster", ClusterIdentifier := "cluster-a",
              Reason := "cluster_failsafe_mode", FailedResource := "node-7" },
          Event.send (demoNotifier "chat")
            { AlertUID := "uid-cluster", ClusterIdentifier := "cluster-a",
              Reason := "cluster_failsafe_mode", FailedResource := "node-7" }] ∧
      (SetFailsafeMode (demoState false) (demoConfig ["pager", "chat"] keepingStore) true
        demoSys).1 = none ∧
      (SetFailsafeMode (demoState false) (demoConfig ["pager", "chat"] keepingStore) true
        demoSys).2.1.FailsafeMode = true :=
  ⟨rfl, by simp [demoConfig],
    (SetFailsafeMode_trip_notifies (demoState false)
      (demoConfig ["pager", "chat"] keepingStore) demoSys rfl (by simp [demoConfig])).1,
    (SetFailsafeMode_trip_notifies (demoState false)
      (demoConfig ["pager", "chat"] keepingStore) demoSys rfl (by simp [demoConfig])).2
      { demoState false with FailsafeMode := true }
      (by rw [emitted_SetFailsafeMode]; simp [keepingStore, demoConfig])⟩

/-- C4: on a breaker that is already tripped (`FailsafeMode = true`), for every
configuration `SetFailsafeMode(state, config, true)` makes no
`SendNotification` call, still makes its `WriteState` call (one, handing over
the state with `FailsafeMode = true`), and `FailsafeMode` is `true`
afterwards. -/
theorem SetFailsafeMode_retrip_silent {W : Type} (state : structs.State)
    (config : structs.Config W) (sys : Sys W) (h : state.FailsafeMode = true) :
    sendCalls (emitted sys (SetFailsafeMode state config true sys).2.2) = [] ∧
      (∃ r : Option String,
        writeCalls (emitted sys (SetFailsafeMode state config true sys).2.2) =
          [Event.write { state with FailsafeMode := true } r]) ∧
      (SetFailsafeMode state config true sys).2.1.FailsafeMode = true := by
  refine ⟨?_, ⟨_, writeCalls_emitted_SetFailsafeMode state config true sys⟩, ?_⟩
  · rw [sendCalls_emitted_SetFailsafeMode]
    simp [tripSends, h]
  · rw [SetFailsafeMode_state]

theorem SetFailsafeMode_retrip_silent_witness :
    (demoState true).FailsafeMode = true ∧
      sendCalls (emitted demoSys
        (SetFailsafeMode (demoState true) (demoConfig ["pager", "chat"] keepingStore) true
          demoSys).2.2) = [] ∧
      (∃ r : Option String,
        writeCalls (emitted demoSys
          (SetFailsafeMode (demoState true) (demoConfig ["pager", "chat"] keepingStore) true
            demoSys).2.2) =
          [Event.write { demoState true with FailsafeMode := true } r]) ∧
      (SetFailsafeMode (demoState true) (demoConfig ["pager", "chat"] keepingStore) true
        demoSys).2.1.FailsafeMode = true :=
  ⟨rfl, SetFailsafeMode_retrip_silent (demoState true)
    (demoConfig ["pager", "chat"] keepingStore) demoSys rfl⟩

/-- C5: in either direction (`enabled` true or false), if the `WriteState` call
made by `SetFailsafeMode` returns a non-nil error with text `e`, then
`SetFailsafeMode` returns a non-nil error, whose message is
`"core/failsafe: "`, then the literal text `"an attempt to update the
persistent state tracking information failed"`, then `": "`, then `e`. -/
theorem SetFailsafeMode_write_error {W : Type} (state : structs.State)
    (config : structs.Config W) (enabled : Bool) (sys : Sys W) (snap : structs.State)
    (e : String)
    (h : Event.write snap (some e) ∈
      emitted sys (SetFailsafeMode state config enabled sys).2.2) :
    (SetFailsafeMode state config enabled sys).1 ≠ none ∧
      (SetFailsafeMode state config enabled sys).1 =
        some ("core/failsafe: " ++
          "an attempt to update the persistent state tracking information failed" ++
          ": " ++ e) := by
  have hstr : ("core/failsafe: " ++
      "an attempt to update the persistent state tracking information failed" ++ ": ") =
      writeContext := by decide
  obtain ⟨_, hr⟩ := mem_emitted_SetFailsafeMode_write state config enabled sys snap (some e) h
  rw [SetFailsafeMode_err, ← hr, hstr]
  simp

theorem SetFailsafeMode_write_error_witness :
    Event.write { demoState false with FailsafeMode := false } (some "connection refused") ∈
        emitted demoSys
          (SetFailsafeMode (demoState false) (demoConfig ["pager"] failingStore) false
            demoSys).2.2 ∧
      (SetFailsafeMode (demoState false) (demoConfig ["pager"] failingStore) false
        demoSys).1 ≠ none ∧
      (SetFailsafeMode (demoState false) (demoConfig ["pager"] failingStore) false
        demoSys).1 =
        some ("core/failsafe: " ++
          "an attempt to update the persistent state tracking information failed" ++
          ": " ++ "connection refused") :=
  ⟨by rw [emitted_SetFailsafeMode]; simp [failingStore, demoConfig],
    SetFailsafeMode_write_error (demoState false) (demoConfig ["pager"] failingStore) false
      demoSys { demoState false with FailsafeMode := false } "connection refused"
      (by rw [emitted_SetFailsafeMode]; simp [failingStore, demoConfig])⟩

/-- C6: `SetFailsafeMode` returns a non-nil error if and only if its
`WriteState` call returns a non-nil error: for every state, every `enabled`,
every notifier list and every behaviour of the notifiers, the call makes one
`WriteState` call, and its own result is `nil` exactly when the result of that
call is `nil`. -/
theorem SetFailsafeMode_error_iff_write_error {W : Type} (state : structs.State)
    (config : structs.Config W) (enabled : Bool) (sys : Sys W) :
    ∃ r : Option String,
      writeCalls (emitted sys (SetFailsafeMode state config enabled sys).2.2) =
          [Event.write { state with FailsafeMode := enabled } r] ∧
        ((SetFailsafeMode state config enabled sys).1 ≠ none ↔ r ≠ none) ∧
        ((SetFailsafeMode state config enabled sys).1 = none ↔ r = none) := by
  refine ⟨_, writeCalls_emitted_SetFailsafeMode state config enabled sys, ?_, ?_⟩ <;>
    rw [SetFailsafeMode_err] <;> simp

/-- C7: for every input state, configuration and `enabled`, whatever the store
answers, the state after `SetFailsafeMode` is the input state with
`FailsafeMode` replaced by `enabled`; `FailsafeModeAdmin`, `LastFailedNode` and
`NodeFailureCount` are unchanged. -/
theorem SetFailsafeMode_sets_flag {W : Type} (state : structs.State)
    (config : structs.Config W) (enabled : Bool) (sys : Sys W) :
    (SetFailsafeMode state config enabled sys).2.1 = { state with FailsafeMode := enabled } ∧
      (SetFailsafeMode state config enabled sys).2.1.FailsafeMode = enabled ∧
      (SetFailsafeMode state config enabled sys).2.1.FailsafeModeAdmin =
        state.FailsafeModeAdmin ∧
      (SetFailsafeMode state config enabled sys).2.1.LastFailedNode = state.LastFailedNode ∧
      (SetFailsafeMode state config enabled sys).2.1.NodeFailureCount =
        state.NodeFailureCount := by
  rw [SetFailsafeMode_state]
  exact ⟨rfl, rfl, rfl, rfl, rfl⟩

/-- C8: for every state, configuration and `enabled`, `SetFailsafeMode` calls
`WriteState` exactly once, whether that call fails or not, and hands it the
input state with `FailsafeMode` replaced by `enabled`; hence, for a store that
keeps the snapshot of every successful write (what `read` returns), a trip
that returns `nil` is followed by a read whose `FailsafeMode` is `true`. -/
theorem SetFailsafeMode_writes_once {W : Type} (state : structs.State)
    (config : structs.Config W) (enabled : Bool) (sys : Sys W) :
    (∃ r : Option String,
        writeCalls (emitted sys (SetFailsafeMode state config enabled sys).2.2) =
          [Event.write { state with FailsafeMode := enabled } r]) ∧
      ∀ read : W → Option structs.State,
        (∀ (c : structs.Settings W) (s : structs.State) (w : W),
          (config.ConsulClient.WriteState c s w).1 = none →
            read (config.ConsulClient.WriteState c s w).2 = some s) →
        (SetFailsafeMode state config true sys).1 = none →
          read (SetFailsafeMode state config true sys).2.2.world =
              some { state with FailsafeMode := true } ∧
            (read (SetFailsafeMode state config true sys).2.2.world).map
              (fun s => s.FailsafeMode) = some true := by
  refine ⟨⟨_, writeCalls_emitted_SetFailsafeMode state config enabled sys⟩, ?_⟩
  intro read hkeep hnil
  rw [SetFailsafeMode_err] at hnil
  have hw := hkeep config.toSettings { state with FailsafeMode := true }
    (worldAtWrite state config true sys.world) (by simpa using hnil)
  rw [SetFailsafeMode_world, hw]
  exact ⟨rfl, rfl⟩

theorem SetFailsafeMode_writes_once_witness :
    (∃ r : Option String,
        writeCalls (emitted demoSys
          (SetFailsafeMode (demoState false) (demoConfig ["pager"] keepingStore) true
            demoSys).2.2) =
          [Event.write { demoState false with FailsafeMode := true } r]) ∧
      (SetFailsafeMode (demoState false) (demoConfig ["pager"] keepingStore) true
        demoSys).1 = none ∧
      (SetFailsafeMode (demoState false) (demoConfig ["pager"] keepingStore) true
        demoSys).2.2.world.stored = some { demoState false with FailsafeMode := true } :=
  ⟨(SetFailsafeMode_writes_once (demoState false) (demoConfig ["pager"] keepingStore) true
      demoSys).1,
    by rw [SetFailsafeMode_err]; rfl,
    ((SetFailsafeMode_writes_once (demoState false) (demoConfig ["pager"] keepingStore) true
      demoSys).2 (fun w => w.stored) (fun _ _ _ _ => rfl)
      (by rw [SetFailsafeMode_err]; rfl)).1⟩

/-- C9: with an empty notifier list, for every state
`SetFailsafeMode(state, config, true)` makes no `SendNotification` call, still
makes its `WriteState` call, and returns `nil` exactly when that write
succeeds. -/
theorem SetFailsafeMode_trip_no_notifiers {W : Type} (state : structs.State)
    (config : structs.Config W) (sys : Sys W) (hn : config.Notification.Notifiers = []) :
    sendCalls (emitted sys (SetFailsafeMode state config true sys).2.2) = [] ∧
      ∃ r : Option String,
        writeCalls (emitted sys (SetFailsafeMode state config true sys).2.2) =
            [Event.write { state with FailsafeMode := true } r] ∧
          (r = none ↔ (SetFailsafeMode state config true sys).1 = none) := by
  refine ⟨?_, _, writeCalls_emitted_SetFailsafeMode state config true sys, ?_⟩
  · rw [sendCalls_emitted_SetFailsafeMode]
    simp [tripSends, hn]
  · rw [SetFailsafeMode_err]
    simp

theorem SetFailsafeMode_trip_no_notifiers_witness :
    (demoConfig [] keepingStore).Notification.Notifiers = [] ∧
      sendCalls (emitted demoSys
        (SetFailsafeMode (demoState false) (demoConfig [] keepingStore) true
          demoSys).2.2) = [] ∧
      ∃ r : Option String,
        writeCalls (emitted demoSys
          (SetFailsafeMode (demoState false) (demoConfig [] keepingStore) true
            demoSys).2.2) =
            [Event.write { demoState false with FailsafeMode := true } r] ∧
          (r = none ↔
            (SetFailsafeMode (demoState false) (demoConfig [] keepingStore) true
              demoSys).1 = none) :=
  ⟨rfl, SetFailsafeMode_trip_no_notifiers (demoState false) (demoConfig [] keepingStore)
    demoSys rfl⟩

/-- C10: for every state, tripped or not, and every configuration,
`SetFailsafeMode(state, config, false)` makes no `SendNotification` call. -/
theorem SetFailsafeMode_reset_silent {W : Type} (state : structs.State)
    (config : structs.Config W) (sys : Sys W) :
    sendCalls (emitted sys (SetFailsafeMode state config false sys).2.2) = [] := by
  rw [sendCalls_emitted_SetFailsafeMode]
  simp [tripSends]

/-! ## What a call of `sendFailsafeNotification` does -/

theorem sendFailsafeNotification_eq {W : Type} (resourceID resourceType uid : String)
    (state : structs.ScalingState) (config : structs.Config W) (now : W → Nat)
    (sys : Sys W) :
    sendFailsafeNotification resourceID resourceType uid state config now sys =
      ({ state with
          LastNotificationEvent := now (worldAfterSends config.Notification.Notifiers
            (notifyMessage resourceID resourceType uid config) sys.world) },
        { world := worldAfterSends config.Notification.Notifiers
            (notifyMessage resourceID resourceType uid config) sys.world
          trace := sys.trace ++ config.Notification.Notifiers.map
            (fun n => Event.send n (notifyMessage resourceID resourceType uid config)) }) := by
  have hguard : ∀ (m : notifier.FailureMessage) (g : notifier.Notifier W → Event W),
      (if config.Notification.Notifiers.length > 0 then
        ({ world := worldAfterSends config.Notification.Notifiers m sys.world
           trace := sys.trace ++ config.Notification.Notifiers.map g } : Sys W) else sys) =
      { world := worldAfterSends config.Notification.Notifiers m sys.world
        trace := sys.trace ++ config.Notification.Notifiers.map g } := by
    intro m g
    cases config.Notification.Notifiers <;> simp [worldAfterSends]
  unfold sendFailsafeNotification
  simp only [foldl_callSendNotification, hguard]
  rfl

theorem emitted_sendFailsafeNotification {W : Type} (resourceID resourceType uid : String)
    (state : structs.ScalingState) (config : structs.Config W) (now : W → Nat)
    (sys : Sys W) :
    emitted sys (sendFailsafeNotification resourceID resourceType uid state config now sys).2 =
      config.Notification.Notifiers.map
        (fun n => Event.send n (notifyMessage resourceID resourceType uid config)) := by
  rw [sendFailsafeNotification_eq]
  exact emitted_append _ _ _

theorem sendCalls_map_send {W : Type} (ns : List (notifier.Notifier W))
    (m : notifier.FailureMessage) :
    sendCalls (ns.map (fun n => Event.send n m)) = ns.map (fun n => Event.send n m) := by
  unfold sendCalls
  rw [List.filter_eq_self]
  intro a ha
  obtain ⟨n, _, rfl⟩ := List.mem_map.mp ha
  rfl

theorem writeCalls_map_send {W : Type} (ns : List (notifier.Notifier W))
    (m : notifier.FailureMessage) :
    writeCalls (ns.map (fun n => Event.send n m)) = [] := by
  unfold writeCalls
  rw [List.filter_eq_nil_iff]
  intro a ha
  obtain ⟨n, _, rfl⟩ := List.mem_map.mp ha
  simp [Event.isWrite]

theorem logLines_map_send {W : Type} (ns : List (notifier.Notifier W))
    (m : notifier.FailureMessage) :
    logLines (ns.map (fun n => Event.send n m)) = [] := by
  unfold logLines
  rw [List.filter_eq_nil_iff]
  intro a ha
  obtain ⟨n, _, rfl⟩ := List.mem_map.mp ha
  simp [Event.isLog]

theorem clock_le_worldAfterSends {W : Type} (now : W → Nat)
    (ns : List (notifier.Notifier W)) (m : notifier.FailureMessage)
    (hmono : ∀ n ∈ ns, ∀ (m' : notifier.FailureMessage) (w : W),
      now w ≤ now (n.SendNotification m' w)) (w : W) :
    now w ≤ now (worldAfterSends ns m w) := by
  induction ns generalizing w with
  | nil => exact Nat.le_refl _
  | cons n ns ih =>
    have h1 := hmono n (List.mem_cons_self n ns) m w
    have h2 := ih (fun k hk => hmono k (List.mem_cons_of_mem n hk)) (n.SendNotification m w)
    exact Nat.le_trans h1 h2

theorem FailsafeCheck_state {W : Type} (state : structs.State) (config : structs.Config W)
    (sys : Sys W) : (FailsafeCheck state config sys).2.1 = state := by
  cases h : state.FailsafeMode <;> simp [FailsafeCheck, h]

theorem Call.run_keeps_tripped {W : Type} (c : Call W) (d : Daemon W)
    (hc : c.isReset = false) (h : d.state.FailsafeMode = true) :
    (c.run d).state.FailsafeMode = true := by
  cases c with
  | failsafeCheck config =>
    show (FailsafeCheck d.state config d.sys).2.1.FailsafeMode = true
    rw [FailsafeCheck_state]
    exact h
  | setFailsafeMode config enabled =>
    cases enabled with
    | true =>
      show (SetFailsafeMode d.state config true d.sys).2.1.FailsafeMode = true
      rw [SetFailsafeMode_state]
    | false => simp [Call.isReset] at hc
  | notify resourceID resourceType uid config now => exact h

theorem runCalls_keeps_tripped {W : Type} (calls : List (Call W)) (d : Daemon W)
    (hc : ∀ c ∈ calls, c.isReset = false) (h : d.state.FailsafeMode = true) :
    (runCalls calls d).state.FailsafeMode = true := by
  induction calls generalizing d with
  | nil => exact h
  | cons c cs ih =>
    show (runCalls cs (c.run d)).state.FailsafeMode = true
    exact ih (c.run d) (fun k hk => hc k (List.mem_cons_of_mem c hk))
      (Call.run_keeps_tripped c d (hc c (List.mem_cons_self c cs)) h)

theorem SetFailsafeMode_trace {W : Type} (state : structs.State) (config : structs.Config W)
    (enabled : Bool) (sys : Sys W) :
    (SetFailsafeMode state config enabled sys).2.2.trace =
      sys.trace ++ emitted sys (SetFailsafeMode state config enabled sys).2.2 := by
  rw [emitted_SetFailsafeMode, SetFailsafeMode_eq]

theorem emitted_trans {W : Type} (a b c : Sys W) (x y : List (Event W))
    (hab : b.trace = a.trace ++ x) (hbc : c.trace = b.trace ++ y) :
    emitted a c = x ++ y := by
  unfold emitted
  rw [hbc, hab, List.append_assoc, List.drop_left]

theorem sendCalls_append {W : Type} (x y : List (Event W)) :
    sendCalls (x ++ y) = sendCalls x ++ sendCalls y := by
  simp [sendCalls]

theorem logLines_tripSends {W : Type} (state : structs.State) (config : structs.Config W)
    (enabled : Bool) : logLines (tripSends state config enabled) = [] := by
  unfold tripSends
  split
  · exact logLines_map_send _ _
  · rfl

theorem logLines_modeLogs {W : Type} (state : structs.State) (enabled : Bool) :
    logLines (modeLogs state enabled : List (Event W)) = modeLogs state enabled := by
  unfold logLines modeLogs
  split
  · rfl
  · split <;> rfl

theorem logLines_emitted_SetFailsafeMode {W : Type} (state : structs.State)
    (config : structs.Config W) (enabled : Bool) (sys : Sys W) :
    logLines (emitted sys (SetFailsafeMode state config enabled sys).2.2) =
      modeLogs state enabled := by
  rw [emitted_SetFailsafeMode]
  have h1 := logLines_tripSends state config enabled
  have h2 := logLines_modeLogs (W := W) state enabled
  unfold logLines at *
  rw [List.filter_append, List.filter_append, h1, h2]
  simp [Event.isLog]

/-! ## The claims on `sendFailsafeNotification` and on sequences of calls -/

/-- C11: for every resource, uid, scaling state and configuration,
`sendFailsafeNotification(resourceID, "worker_pool", uid, state, config)` calls
`SendNotification` once on each configured notifier, in list order, with the
message whose `AlertUID` is the argument `uid`, whose `ClusterIdentifier` is
`config.Notification.ClusterIdentifier`, whose `Reason` is
`"cluster_failsafe_mode"` and whose `FailedResource` is `resourceID`; these are
all the events of the call, and with an empty notifier list nothing is sent. -/
theorem sendFailsafeNotification_worker_pool {W : Type} (resourceID uid : String)
    (state : structs.ScalingState) (config : structs.Config W) (now : W → Nat)
    (sys : Sys W) :
    sendCalls (emitted sys
        (sendFailsafeNotification resourceID "worker_pool" uid state config now sys).2) =
        config.Notification.Notifiers.map (fun n => Event.send n
          { AlertUID := uid
            ClusterIdentifier := config.Notification.ClusterIdentifier
            Reason := "cluster_failsafe_mode"
            FailedResource := resourceID }) ∧
      emitted sys
        (sendFailsafeNotification resourceID "worker_pool" uid state config now sys).2 =
        sendCalls (emitted sys
          (sendFailsafeNotification resourceID "worker_pool" uid state config now sys).2) ∧
      (config.Notification.Notifiers = [] →
        sendCalls (emitted sys
          (sendFailsafeNotification resourceID "worker_pool" uid state config now sys).2)
          = []) := by
  rw [emitted_sendFailsafeNotification, sendCalls_map_send]
  refine ⟨rfl, rfl, ?_⟩
  intro hn
  rw [hn]
  rfl

theorem sendFailsafeNotification_worker_pool_witness :
    sendCalls (emitted demoSys
        (sendFailsafeNotification "node-7" "worker_pool" "uid-42"
          { LastNotificationEvent := 0 } (demoConfig ["pager"] keepingStore) demoClock
          demoSys).2) =
        [Event.send (demoNotifier "pager")
          { AlertUID := "uid-42", ClusterIdentifier := "cluster-a",
            Reason := "cluster_failsafe_mode", FailedResource := "node-7" }] ∧
      (demoConfig [] keepingStore).Notification.Notifiers = [] ∧
      sendCalls (emitted demoSys
        (sendFailsafeNotification "node-7" "worker_pool" "uid-42"
          { LastNotificationEvent := 0 } (demoConfig [] keepingStore) demoClock
          demoSys).2) = [] :=
  ⟨(sendFailsafeNotification_worker_pool "node-7" "uid-42" { LastNotificationEvent := 0 }
      (demoConfig ["pager"] keepingStore) demoClock demoSys).1,
    rfl,
    (sendFailsafeNotification_worker_pool "node-7" "uid-42" { LastNotificationEvent := 0 }
      (demoConfig [] keepingStore) demoClock demoSys).2.2 rfl⟩

/-- C12: called with `resourceType = "job_group"`, `sendFailsafeNotification`
sends to each configured notifier, in list order, the message whose `Reason` is
exactly `"job_group_failsafe_mode"` (uid, cluster identifier and resource as
given); and the reason of a message sent for `"worker_pool"` differs from the
reason of a message sent for `"job_group"`. -/
theorem sendFailsafeNotification_job_group {W : Type} (resourceID uid : String)
    (state : structs.ScalingState) (config : structs.Config W) (now : W → Nat)
    (sys : Sys W) :
    sendCalls (emitted sys
        (sendFailsafeNotification resourceID "job_group" uid state config now sys).2) =
        config.Notification.Notifiers.map (fun n => Event.send n
          { AlertUID := uid
            ClusterIdentifier := config.Notification.ClusterIdentifier
            Reason := "job_group_failsafe_mode"
            FailedResource := resourceID }) ∧
      ∀ (n1 n2 : notifier.Notifier W) (m1 m2 : notifier.FailureMessage),
        Event.send n1 m1 ∈ emitted sys
          (sendFailsafeNotification resourceID "worker_pool" uid state config now sys).2 →
        Event.send n2 m2 ∈ emitted sys
          (sendFailsafeNotification resourceID "job_group" uid state config now sys).2 →
        m1.Reason = "cluster_failsafe_mode" ∧ m2.Reason = "job_group_failsafe_mode" ∧
          m1.Reason ≠ m2.Reason := by
  refine ⟨?_, ?_⟩
  · rw [emitted_sendFailsafeNotification, sendCalls_map_send]
    rfl
  · intro n1 n2 m1 m2 h1 h2
    rw [emitted_sendFailsafeNotification] at h1 h2
    obtain ⟨k1, _, hk1⟩ := List.mem_map.mp h1
    obtain ⟨k2, _, hk2⟩ := List.mem_map.mp h2
    injection hk1 with _ e1
    injection hk2 with _ e2
    subst e1
    subst e2
    refine ⟨rfl, rfl, ?_⟩
    show notifyReason "worker_pool" ≠ notifyReason "job_group"
    decide

theorem sendFailsafeNotification_job_group_witness :
    sendCalls (emitted demoSys
        (sendFailsafeNotification "job-3" "job_group" "uid-42"
          { LastNotificationEvent := 0 } (demoConfig ["pager"] keepingStore) demoClock
          demoSys).2) =
        [Event.send (demoNotifier "pager")
          { AlertUID := "uid-42", ClusterIdentifier := "cluster-a",
            Reason := "job_group_failsafe_mode", FailedResource := "job-3" }] ∧
      (notifyMessage "job-3" "worker_pool" "uid-42"
          (demoConfig ["pager"] keepingStore)).Reason ≠
        (notifyMessage "job-3" "job_group" "uid-42"
          (demoConfig ["pager"] keepingStore)).Reason :=
  ⟨(sendFailsafeNotification_job_group "job-3" "uid-42" { LastNotificationEvent := 0 }
      (demoConfig ["pager"] keepingStore) demoClock demoSys).1,
    ((sendFailsafeNotification_job_group "job-3" "uid-42" { LastNotificationEvent := 0 }
      (demoConfig ["pager"] keepingStore) demoClock demoSys).2
      (demoNotifier "pager") (demoNotifier "pager")
      (notifyMessage "job-3" "worker_pool" "uid-42" (demoConfig ["pager"] keepingStore))
      (notifyMessage "job-3" "job_group" "uid-42" (demoConfig ["pager"] keepingStore))
      (by rw [emitted_sendFailsafeNotification]; simp [demoConfig])
      (by rw [emitted_sendFailsafeNotification]; simp [demoConfig])).2.2⟩

/-- C13: for every resource type, recognised or not, and every notifier list,
empty or not, whatever the notifiers do, `sendFailsafeNotification` sets
`state.LastNotificationEvent` to the clock value read in the world the call
ends in (no other field changes); and when no notifier call sets the clock
back, that value is at least the clock value at the start of the call. -/
theorem sendFailsafeNotification_stamps {W : Type} (resourceID resourceType uid : String)
    (state : structs.ScalingState) (config : structs.Config W) (now : W → Nat)
    (sys : Sys W) :
    (sendFailsafeNotification resourceID resourceType uid state config now
        sys).1.LastNotificationEvent =
        now (sendFailsafeNotification resourceID resourceType uid state config now sys).2.world ∧
      (sendFailsafeNotification resourceID resourceType uid state config now sys).1 =
        { state with
          LastNotificationEvent := now (sendFailsafeNotification resourceID resourceType uid
            state config now sys).2.world } ∧
      ((∀ n ∈ config.Notification.Notifiers, ∀ (m : notifier.FailureMessage) (w : W),
          now w ≤ now (n.SendNotification m w)) →
        now sys.world ≤
          (sendFailsafeNotification resourceID resourceType uid state config now
            sys).1.LastNotificationEvent) := by
  rw [sendFailsafeNotification_eq]
  refine ⟨rfl, rfl, ?_⟩
  intro hmono
  exact clock_le_worldAfterSends now _ _ hmono sys.world

theorem sendFailsafeNotification_stamps_witness :
    (sendFailsafeNotification "node-7" "database" "uid-42" { LastNotificationEvent := 0 }
        (demoConfig ["pager", "chat"] failingStore) demoClock
        demoSys).1.LastNotificationEvent = 102 ∧
      demoClock demoSys.world = 100 ∧
      demoClock demoSys.world ≤
        (sendFailsafeNotification "node-7" "database" "uid-42" { LastNotificationEvent := 0 }
          (demoConfig ["pager", "chat"] failingStore) demoClock
          demoSys).1.LastNotificationEvent :=
  ⟨by
      rw [(sendFailsafeNotification_stamps "node-7" "database" "uid-42"
        { LastNotificationEvent := 0 } (demoConfig ["pager", "chat"] failingStore)
        demoClock demoSys).1]
      rfl,
    rfl,
    (sendFailsafeNotification_stamps "node-7" "database" "uid-42"
      { LastNotificationEvent := 0 } (demoConfig ["pager", "chat"] failingStore)
      demoClock demoSys).2.2
      (by
        intro n hn m w
        simp only [demoConfig, List.map_cons, List.map_nil, List.mem_cons,
          List.mem_singleton, List.not_mem_nil, or_false] at hn
        rcases hn with rfl | rfl <;> simp [demoNotifier, demoClock])⟩

/-- C14 (as stated, refuted): two runs of `SetFailsafeMode` on inputs that
differ only in `state.FailsafeModeAdmin` can return different errors, because
the store is handed the snapshot with the flag in it: a store that refuses the
operator's snapshots accepts one run and fails the other. -/
theorem SetFailsafeMode_admin_flag_changes_error :
    (SetFailsafeMode (demoState false) (demoConfig ["pager"] adminRefusingStore) true
        demoSys).1 = none ∧
      (SetFailsafeMode { demoState false with FailsafeModeAdmin := true }
        (demoConfig ["pager"] adminRefusingStore) true demoSys).1 =
        some ("core/failsafe: an attempt to update the persistent state tracking " ++
          "information failed: operator snapshot refused") ∧
      (SetFailsafeMode { demoState false with FailsafeModeAdmin := true }
        (demoConfig ["pager"] adminRefusingStore) true demoSys).1 ≠
        (SetFailsafeMode (demoState false) (demoConfig ["pager"] adminRefusingStore) true
          demoSys).1 := by
  refine ⟨?_, ?_, ?_⟩
  · rw [SetFailsafeMode_err]; rfl
  · rw [SetFailsafeMode_err]; decide
  · rw [SetFailsafeMode_err, SetFailsafeMode_err]; decide

/-- C14 (amended): for two runs of `SetFailsafeMode` on inputs that differ only
in `state.FailsafeModeAdmin`, the `SendNotification` calls (notifiers and
messages) are identical, the resulting `FailsafeMode` is identical, each run
makes one `WriteState` call and the two snapshots agree on every field other
than `FailsafeModeAdmin`; and the returned error is identical whenever the
answer of the store does not depend on the `FailsafeModeAdmin` field of the
snapshot it is handed. -/
theorem SetFailsafeMode_admin_flag_frame {W : Type} (state : structs.State)
    (config : structs.Config W) (enabled : Bool) (sys : Sys W) (admin : Bool) :
    sendCalls (emitted sys
        (SetFailsafeMode { state with FailsafeModeAdmin := admin } config enabled sys).2.2) =
        sendCalls (emitted sys (SetFailsafeMode state config enabled sys).2.2) ∧
      (SetFailsafeMode { state with FailsafeModeAdmin := admin } config enabled
          sys).2.1.FailsafeMode =
        (SetFailsafeMode state config enabled sys).2.1.FailsafeMode ∧
      (∃ r1 r2 : Option String,
        writeCalls (emitted sys (SetFailsafeMode state config enabled sys).2.2) =
            [Event.write
              { FailsafeMode := enabled
                FailsafeModeAdmin := state.FailsafeModeAdmin
                LastFailedNode := state.LastFailedNode
                NodeFailureCount := state.NodeFailureCount } r1] ∧
          writeCalls (emitted sys
            (SetFailsafeMode { state with FailsafeModeAdmin := admin } config enabled
              sys).2.2) =
            [Event.write
              { FailsafeMode := enabled
                FailsafeModeAdmin := admin
                LastFailedNode := state.LastFailedNode
                NodeFailureCount := state.NodeFailureCount } r2]) ∧
      ((∀ (c : structs.Settings W) (s : structs.State) (w : W) (a : Bool),
          (config.ConsulClient.WriteState c { s with FailsafeModeAdmin := a } w).1 =
            (config.ConsulClient.WriteState c s w).1) →
        (SetFailsafeMode { state with FailsafeModeAdmin := admin } config enabled sys).1 =
          (SetFailsafeMode state config enabled sys).1) := by
  refine ⟨?_, ?_, ⟨_, _, writeCalls_emitted_SetFailsafeMode state config enabled sys,
    writeCalls_emitted_SetFailsafeMode { state with FailsafeModeAdmin := admin } config
      enabled sys⟩, ?_⟩
  · rw [sendCalls_emitted_SetFailsafeMode, sendCalls_emitted_SetFailsafeMode]
    rfl
  · rw [SetFailsafeMode_state, SetFailsafeMode_state]
  · intro hstore
    rw [SetFailsafeMode_err, SetFailsafeMode_err]
    have h := hstore config.toSettings { state with FailsafeMode := enabled }
      (worldAtWrite state config enabled sys.world) admin
    exact congrArg (Option.map (fun e => writeContext ++ e)) h

theorem SetFailsafeMode_admin_flag_frame_witness :
    sendCalls (emitted demoSys
        (SetFailsafeMode { demoState false with FailsafeModeAdmin := true }
          (demoConfig ["pager"] failingStore) true demoSys).2.2) =
        sendCalls (emitted demoSys
          (SetFailsafeMode (demoState false) (demoConfig ["pager"] failingStore) true
            demoSys).2.2) ∧
      (SetFailsafeMode { demoState false with FailsafeModeAdmin := true }
          (demoConfig ["pager"] failingStore) true demoSys).1 =
        (SetFailsafeMode (demoState false) (demoConfig ["pager"] failingStore) true
          demoSys).1 :=
  ⟨(SetFailsafeMode_admin_flag_frame (demoState false) (demoConfig ["pager"] failingStore)
      true demoSys true).1,
    (SetFailsafeMode_admin_flag_frame (demoState false) (demoConfig ["pager"] failingStore)
      true demoSys true).2.2.2 (fun _ _ _ _ => rfl)⟩

/-- C15: the breaker is never cleared automatically.  From a daemon whose
`FailsafeMode` is `true`, any sequence of calls of `FailsafeCheck`,
`SetFailsafeMode(enabled = true)` and `sendFailsafeNotification` ends with
`FailsafeMode = true`; a single call that ends with `FailsafeMode = false` is
`SetFailsafeMode` with `enabled = false`; and that call does clear it. -/
theorem breaker_cleared_only_by_reset {W : Type} (calls : List (Call W)) (d : Daemon W)
    (h : d.state.FailsafeMode = true) :
    ((∀ c ∈ calls, c.isReset = false) → (runCalls calls d).state.FailsafeMode = true) ∧
      (∀ c : Call W, (c.run d).state.FailsafeMode = false →
        ∃ config : structs.Config W, c = Call.setFailsafeMode config false) ∧
      ∀ config : structs.Config W,
        ((Call.setFailsafeMode config false).run d).state.FailsafeMode = false := by
  refine ⟨fun hc => runCalls_keeps_tripped calls d hc h, ?_, ?_⟩
  · intro c hfalse
    cases hr : c.isReset with
    | false =>
      have := Call.run_keeps_tripped c d hr h
      rw [hfalse] at this
      exact absurd this (by decide)
    | true =>
      cases c with
      | failsafeCheck config => simp [Call.isReset] at hr
      | setFailsafeMode config enabled =>
        cases enabled with
        | true => simp [Call.isReset] at hr
        | false => exact ⟨config, rfl⟩
      | notify resourceID resourceType uid config now => simp [Call.isReset] at hr
  · intro config
    show (SetFailsafeMode d.state config false d.sys).2.1.FailsafeMode = false
    rw [SetFailsafeMode_state]

theorem breaker_cleared_only_by_reset_witness :
    (demoDaemon true).state.FailsafeMode = true ∧
      (runCalls
        [Call.failsafeCheck (demoConfig ["pager"] keepingStore),
          Call.setFailsafeMode (demoConfig ["pager"] failingStore) true,
          Call.notify "node-7" "worker_pool" "uid-42" (demoConfig ["pager"] keepingStore)
            demoClock,
          Call.failsafeCheck (demoConfig [] keepingStore)]
        (demoDaemon true)).state.FailsafeMode = true ∧
      ((Call.setFailsafeMode (demoConfig ["pager"] keepingStore) false).run
        (demoDaemon true)).state.FailsafeMode = false :=
  ⟨rfl,
    (breaker_cleared_only_by_reset
      [Call.failsafeCheck (demoConfig ["pager"] keepingStore),
        Call.setFailsafeMode (demoConfig ["pager"] failingStore) true,
        Call.notify "node-7" "worker_pool" "uid-42" (demoConfig ["pager"] keepingStore)
          demoClock,
        Call.failsafeCheck (demoConfig [] keepingStore)]
      (demoDaemon true) rfl).1
      (by
        intro c hc
        simp only [List.mem_cons, List.mem_singleton, List.not_mem_nil, or_false] at hc
        rcases hc with rfl | rfl | rfl | rfl <;> rfl),
    (breaker_cleared_only_by_reset [] (demoDaemon true) rfl).2.2
      (demoConfig ["pager"] keepingStore)⟩

/-- C16: `sendFailsafeNotification` is independent of the circuit breaker.  For
every input its events are notifier calls only: no `WriteState` call, no log
line, and the events of no `SetFailsafeMode` call occur among them (so neither
`SetFailsafeMode` nor a passing `FailsafeCheck` ran).  It is not handed the
daemon state, which is the same after the call; replacing the daemon state by
any other changes neither the events nor the resulting scaling state; and the
scaling state changes in `LastNotificationEvent` only. -/
theorem sendFailsafeNotification_independent {W : Type} (resourceID resourceType uid : String)
    (config : structs.Config W) (now : W → Nat) (d : Daemon W) (state' : structs.State) :
    writeCalls (emitted d.sys
        ((Call.notify resourceID resourceType uid config now).run d).sys) = [] ∧
      logLines (emitted d.sys
        ((Call.notify resourceID resourceType uid config now).run d).sys) = [] ∧
      sendCalls (emitted d.sys
          ((Call.notify resourceID resourceType uid config now).run d).sys) =
        emitted d.sys ((Call.notify resourceID resourceType uid config now).run d).sys ∧
      (∀ (st : structs.State) (cfg : structs.Config W) (enabled : Bool) (sys' : Sys W),
        ¬ (emitted sys' (SetFailsafeMode st cfg enabled sys').2.2 <:+:
          emitted d.sys ((Call.notify resourceID resourceType uid config now).run d).sys)) ∧
      ((Call.notify resourceID resourceType uid config now).run d).state = d.state ∧
      (Call.notify resourceID resourceType uid config now).run { d with state := state' } =
        { (Call.notify resourceID resourceType uid config now).run d with state := state' } ∧
      ((Call.notify resourceID resourceType uid config now).run d).scaling =
        { d.scaling with
          LastNotificationEvent :=
            now ((Call.notify resourceID resourceType uid config now).run d).sys.world } := by
  have hrun : (Call.notify resourceID resourceType uid config now).run d =
      { d with
        scaling := (sendFailsafeNotification resourceID resourceType uid d.scaling config now
          d.sys).1
        sys := (sendFailsafeNotification resourceID resourceType uid d.scaling config now
          d.sys).2 } := rfl
  have hem : emitted d.sys ((Call.notify resourceID resourceType uid config now).run d).sys =
      config.Notification.Notifiers.map
        (fun n => Event.send n (notifyMessage resourceID resourceType uid config)) := by
    rw [hrun]
    exact emitted_sendFailsafeNotification resourceID resourceType uid d.scaling config now
      d.sys
  rw [hem]
  refine ⟨writeCalls_map_send _ _, logLines_map_send _ _, sendCalls_map_send _ _, ?_, rfl, rfl,
    ?_⟩
  · intro st cfg enabled sys' hin
    have hmem : Event.write { st with FailsafeMode := enabled }
        (cfg.ConsulClient.WriteState cfg.toSettings { st with FailsafeMode := enabled }
          (worldAtWrite st cfg enabled sys'.world)).1 ∈
        emitted sys' (SetFailsafeMode st cfg enabled sys').2.2 := by
      rw [emitted_SetFailsafeMode]
      simp
    have := hin.subset hmem
    simp at this
  · rw [hrun, sendFailsafeNotification_eq]

theorem sendFailsafeNotification_independent_witness :
    writeCalls (emitted (demoDaemon false).sys
        ((Call.notify "node-7" "worker_pool" "uid-42" (demoConfig ["pager"] keepingStore)
          demoClock).run (demoDaemon false)).sys) = [] ∧
      (Call.notify "node-7" "worker_pool" "uid-42" (demoConfig ["pager"] keepingStore)
          demoClock).run { demoDaemon false with state := demoState true } =
        { (Call.notify "node-7" "worker_pool" "uid-42" (demoConfig ["pager"] keepingStore)
          demoClock).run (demoDaemon false) with state := demoState true } :=
  ⟨(sendFailsafeNotification_independent "node-7" "worker_pool" "uid-42"
      (demoConfig ["pager"] keepingStore) demoClock (demoDaemon false) (demoState true)).1,
    (sendFailsafeNotification_independent "node-7" "worker_pool" "uid-42"
      (demoConfig ["pager"] keepingStore) demoClock (demoDaemon false)
      (demoState true)).2.2.2.2.2.1⟩

/-- C17: tripping is idempotent.  When `SetFailsafeMode(enabled = true)` is
called twice in a row, the in-memory state after the second call is the state
after the first, both calls hand the same snapshot to `WriteState`, the second
call makes no `SendNotification` call, and over the two calls each entry of
the notifier list is sent at most one trip message; with a store whose writes
succeed and that keeps the last written snapshot, the persisted snapshot after
the second call is the one persisted by the first. -/
theorem SetFailsafeMode_trip_idempotent {W : Type} (state : structs.State)
    (config : structs.Config W) (sys : Sys W) :
    (SetFailsafeMode (SetFailsafeMode state config true sys).2.1 config true
        (SetFailsafeMode state config true sys).2.2).2.1 =
        (SetFailsafeMode state config true sys).2.1 ∧
      sendCalls (emitted (SetFailsafeMode state config true sys).2.2
        (SetFailsafeMode (SetFailsafeMode state config true sys).2.1 config true
          (SetFailsafeMode state config true sys).2.2).2.2) = [] ∧
      (∃ r1 r2 : Option String,
        writeCalls (emitted sys (SetFailsafeMode state config true sys).2.2) =
            [Event.write { state with FailsafeMode := true } r1] ∧
          writeCalls (emitted (SetFailsafeMode state config true sys).2.2
            (SetFailsafeMode (SetFailsafeMode state config true sys).2.1 config true
              (SetFailsafeMode state config true sys).2.2).2.2) =
            [Event.write { state with FailsafeMode := true } r2]) ∧
      sendCalls (emitted sys
          (SetFailsafeMode (SetFailsafeMode state config true sys).2.1 config true
            (SetFailsafeMode state config true sys).2.2).2.2) =
        sendCalls (emitted sys (SetFailsafeMode state config true sys).2.2) ∧
      List.Sublist
        (sendCalls (emitted sys
          (SetFailsafeMode (SetFailsafeMode state config true sys).2.1 config true
            (SetFailsafeMode state config true sys).2.2).2.2))
        (config.Notification.Notifiers.map (fun n => Event.send n
          { AlertUID := config.Notification.ClusterScalingUID
            ClusterIdentifier := config.Notification.ClusterIdentifier
            Reason := "cluster_failsafe_mode"
            FailedResource := state.LastFailedNode })) ∧
      ∀ read : W → Option structs.State,
        (∀ (c : structs.Settings W) (s : structs.State) (w : W),
          (config.ConsulClient.WriteState c s w).1 = none ∧
            read (config.ConsulClient.WriteState c s w).2 = some s) →
        read (SetFailsafeMode (SetFailsafeMode state config true sys).2.1 config true
            (SetFailsafeMode state config true sys).2.2).2.2.world =
          read (SetFailsafeMode state config true sys).2.2.world ∧
        read (SetFailsafeMode state config true sys).2.2.world =
          some { state with FailsafeMode := true } := by
  have hst : (SetFailsafeMode state config true sys).2.1 = { state with FailsafeMode := true } :=
    SetFailsafeMode_state state config true sys
  have hsecond : sendCalls (emitted (SetFailsafeMode state config true sys).2.2
      (SetFailsafeMode (SetFailsafeMode state config true sys).2.1 config true
        (SetFailsafeMode state config true sys).2.2).2.2) = [] := by
    rw [sendCalls_emitted_SetFailsafeMode, hst]
    simp [tripSends]
  have hboth : emitted sys
      (SetFailsafeMode (SetFailsafeMode state config true sys).2.1 config true
        (SetFailsafeMode state config true sys).2.2).2.2 =
      emitted sys (SetFailsafeMode state config true sys).2.2 ++
        emitted (SetFailsafeMode state config true sys).2.2
          (SetFailsafeMode (SetFailsafeMode state config true sys).2.1 config true
            (SetFailsafeMode state config true sys).2.2).2.2 :=
    emitted_trans _ _ _ _ _ (SetFailsafeMode_trace state config true sys)
      (SetFailsafeMode_trace _ config true _)
  have hsends : sendCalls (emitted sys
      (SetFailsafeMode (SetFailsafeMode state config true sys).2.1 config true
        (SetFailsafeMode state config true sys).2.2).2.2) =
      sendCalls (emitted sys (SetFailsafeMode state config true sys).2.2) := by
    rw [hboth, sendCalls_append, hsecond, List.append_nil]
  have hw2 : ∃ r2 : Option String,
      writeCalls (emitted (SetFailsafeMode state config true sys).2.2
        (SetFailsafeMode (SetFailsafeMode state config true sys).2.1 config true
          (SetFailsafeMode state config true sys).2.2).2.2) =
        [Event.write { state with FailsafeMode := true } r2] := by
    rw [writeCalls_emitted_SetFailsafeMode, hst]
    exact ⟨_, rfl⟩
  obtain ⟨r2, hr2⟩ := hw2
  refine ⟨?_, hsecond, ⟨_, r2, writeCalls_emitted_SetFailsafeMode state config true sys, hr2⟩,
    hsends, ?_, ?_⟩
  · rw [SetFailsafeMode_state, hst]
  · rw [hsends, sendCalls_emitted_SetFailsafeMode]
    unfold tripSends
    split
    · exact List.Sublist.refl _
    · exact List.nil_sublist _
  · intro read hstore
    rw [SetFailsafeMode_world, SetFailsafeMode_world, (hstore _ _ _).2, (hstore _ _ _).2, hst]
    exact ⟨rfl, rfl⟩

theorem SetFailsafeMode_trip_idempotent_witness :
    sendCalls (emitted demoSys
        (SetFailsafeMode
          (SetFailsafeMode (demoState false) (demoConfig ["pager"] keepingStore) true
            demoSys).2.1
          (demoConfig ["pager"] keepingStore) true
          (SetFailsafeMode (demoState false) (demoConfig ["pager"] keepingStore) true
            demoSys).2.2).2.2) =
        sendCalls (emitted demoSys
          (SetFailsafeMode (demoState false) (demoConfig ["pager"] keepingStore) true
            demoSys).2.2) ∧
      (SetFailsafeMode
          (SetFailsafeMode (demoState false) (demoConfig ["pager"] keepingStore) true
            demoSys).2.1
          (demoConfig ["pager"] keepingStore) true
          (SetFailsafeMode (demoState false) (demoConfig ["pager"] keepingStore) true
            demoSys).2.2).2.2.world.stored =
        (SetFailsafeMode (demoState false) (demoConfig ["pager"] keepingStore) true
          demoSys).2.2.world.stored :=
  ⟨(SetFailsafeMode_trip_idempotent (demoState false) (demoConfig ["pager"] keepingStore)
      demoSys).2.2.2.1,
    ((SetFailsafeMode_trip_idempotent (demoState false) (demoConfig ["pager"] keepingStore)
      demoSys).2.2.2.2.2 (fun w => w.stored) (fun _ _ _ => ⟨rfl, rfl⟩)).1⟩

/-- C18: for every resource type other than `"worker_pool"` and `"job_group"`
(the empty string included), `sendFailsafeNotification` returns as for a
recognised type: it sends one message to each configured notifier, in list
order, whose `Reason` is the empty string and whose `AlertUID`,
`ClusterIdentifier` and `FailedResource` are the uid, the configured cluster
identifier and the resource, and it sets `LastNotificationEvent` to the clock
value at the end of the call. -/
theorem sendFailsafeNotification_unknown_type {W : Type}
    (resourceID resourceType uid : String) (state : structs.ScalingState)
    (config : structs.Config W) (now : W → Nat) (sys : Sys W)
    (h1 : resourceType ≠ "worker_pool") (h2 : resourceType ≠ "job_group") :
    sendCalls (emitted sys
        (sendFailsafeNotification resourceID resourceType uid state config now sys).2) =
        config.Notification.Notifiers.map (fun n => Event.send n
          { AlertUID := uid
            ClusterIdentifier := config.Notification.ClusterIdentifier
            Reason := ""
            FailedResource := resourceID }) ∧
      (sendFailsafeNotification resourceID resourceType uid state config now
          sys).1.LastNotificationEvent =
        now (sendFailsafeNotification resourceID resourceType uid state config now
          sys).2.world := by
  have hreason : notifyReason resourceType = "" := by
    simp [notifyReason, h1, h2]
  refine ⟨?_, ?_⟩
  · rw [emitted_sendFailsafeNotification, sendCalls_map_send]
    simp [notifyMessage, hreason]
  · rw [sendFailsafeNotification_eq]

theorem sendFailsafeNotification_unknown_type_witness :
    ("" : String) ≠ "worker_pool" ∧ ("" : String) ≠ "job_group" ∧
      sendCalls (emitted demoSys
        (sendFailsafeNotification "node-7" "" "uid-42" { LastNotificationEvent := 0 }
          (demoConfig ["pager"] keepingStore) demoClock demoSys).2) =
        [Event.send (demoNotifier "pager")
          { AlertUID := "uid-42", ClusterIdentifier := "cluster-a", Reason := "",
            FailedResource := "node-7" }] :=
  ⟨by decide, by decide,
    (sendFailsafeNotification_unknown_type "node-7" "" "uid-42" { LastNotificationEvent := 0 }
      (demoConfig ["pager"] keepingStore) demoClock demoSys (by decide) (by decide)).1⟩

/-- C19: in `SetFailsafeMode(enabled = true)` on a closed breaker with a
non-empty notifier list, the events of the call are the `SendNotification`
calls (one per configured notifier, in list order), then the log line if any,
then the single `WriteState` call, which comes last.  The call returns an
error exactly when that write fails, and the notifier calls have been made all
the same; and a following `SetFailsafeMode(enabled = true)` on the resulting
in-memory state makes no `SendNotification` call, whatever the first write
answered. -/
theorem SetFailsafeMode_notifies_before_write {W : Type} (state : structs.State)
    (config : structs.Config W) (sys : Sys W) (h : state.FailsafeMode = false)
    (hn : config.Notification.Notifiers ≠ []) :
    ∃ r : Option String,
      emitted sys (SetFailsafeMode state config true sys).2.2 =
          config.Notification.Notifiers.map (fun n => Event.send n
            { AlertUID := config.Notification.ClusterScalingUID
              ClusterIdentifier := config.Notification.ClusterIdentifier
              Reason := "cluster_failsafe_mode"
              FailedResource := state.LastFailedNode }) ++
            modeLogs state true ++
            [Event.write { state with FailsafeMode := true } r] ∧
        (r ≠ none ↔ (SetFailsafeMode state config true sys).1 ≠ none) ∧
        sendCalls (emitted sys (SetFailsafeMode state config true sys).2.2) ≠ [] ∧
        sendCalls (emitted (SetFailsafeMode state config true sys).2.2
          (SetFailsafeMode (SetFailsafeMode state config true sys).2.1 config true
            (SetFailsafeMode state config true sys).2.2).2.2) = [] := by
  refine ⟨(config.ConsulClient.WriteState config.toSettings
    { state with FailsafeMode := true } (worldAtWrite state config true sys.world)).1,
    ?_, ?_, ?_, ?_⟩
  · rw [emitted_SetFailsafeMode]
    simp [tripSends, h, tripMessage]
  · rw [SetFailsafeMode_err]
    simp
  · rw [sendCalls_emitted_SetFailsafeMode]
    simp [tripSends, h, hn]
  · rw [sendCalls_emitted_SetFailsafeMode, SetFailsafeMode_state]
    simp [tripSends]

theorem SetFailsafeMode_notifies_before_write_witness :
    (demoState false).FailsafeMode = false ∧
      (demoConfig ["pager"] failingStore).Notification.Notifiers ≠ [] ∧
      ∃ r : Option String,
        emitted demoSys
            (SetFailsafeMode (demoState false) (demoConfig ["pager"] failingStore) true
              demoSys).2.2 =
            (demoConfig ["pager"] failingStore).Notification.Notifiers.map
                (fun n => Event.send n
                  { AlertUID :=
                      (demoConfig ["pager"] failingStore).Notification.ClusterScalingUID
                    ClusterIdentifier :=
                      (demoConfig ["pager"] failingStore).Notification.ClusterIdentifier
                    Reason := "cluster_failsafe_mode"
                    FailedResource := (demoState false).LastFailedNode }) ++
              modeLogs (demoState false) true ++
              [Event.write { demoState false with FailsafeMode := true } r] ∧
          (r ≠ none ↔
            (SetFailsafeMode (demoState false) (demoConfig ["pager"] failingStore) true
              demoSys).1 ≠ none) ∧
          sendCalls (emitted demoSys
            (SetFailsafeMode (demoState false) (demoConfig ["pager"] failingStore) true
              demoSys).2.2) ≠ [] ∧
          sendCalls (emitted
            (SetFailsafeMode (demoState false) (demoConfig ["pager"] failingStore) true
              demoSys).2.2
            (SetFailsafeMode
              (SetFailsafeMode (demoState false) (demoConfig ["pager"] failingStore) true
                demoSys).2.1
              (demoConfig ["pager"] failingStore) true
              (SetFailsafeMode (demoState false) (demoConfig ["pager"] failingStore) true
                demoSys).2.2).2.2) = [] :=
  ⟨rfl, by simp [demoConfig],
    SetFailsafeMode_notifies_before_write (demoState false)
      (demoConfig ["pager"] failingStore) demoSys rfl (by simp [demoConfig])⟩

/-- C20: the log lines of `SetFailsafeMode` are: none when
`state.FailsafeModeAdmin` is true; otherwise exactly one, the warning
"... has been placed in failsafe mode ..." for `enabled = true` (whether or
not the breaker was already tripped) and the info line "exiting failsafe mode"
for `enabled = false`.  `FailsafeCheck` emits exactly one debug line when it
returns `true` and no log line when it returns `false`. -/
theorem failsafe_log_lines {W : Type} (state : structs.State) (config : structs.Config W)
    (enabled : Bool) (sys : Sys W) :
    logLines (emitted sys (SetFailsafeMode state config enabled sys).2.2) =
        (if state.FailsafeModeAdmin then []
          else if enabled then
            [Event.log logging.Level.warning
              "core/failsafe: Replicator has been placed in failsafe mode. No scaling evaluations or operations will be permitted from any running copies of Replicator."]
          else [Event.log logging.Level.info "core/failsafe: exiting failsafe mode"]) ∧
      ((FailsafeCheck state config sys).1 = true →
        logLines (emitted sys (FailsafeCheck state config sys).2.2) =
          [Event.log logging.Level.debug
            "core/failsafe: the failsafe check passes, scaling evaluations and operations will be permitted."]) ∧
      ((FailsafeCheck state config sys).1 = false →
        logLines (emitted sys (FailsafeCheck state config sys).2.2) = []) := by
  have hstr : ("core/failsafe: the failsafe check passes, scaling " ++
      "evaluations and operations will be permitted.") =
      "core/failsafe: the failsafe check passes, scaling evaluations and operations will be permitted." := by
    decide
  refine ⟨?_, ?_, ?_⟩
  · rw [logLines_emitted_SetFailsafeMode]
    rfl
  · intro htrue
    cases hm : state.FailsafeMode with
    | true =>
      have hc : (FailsafeCheck state config sys).1 = false := by
        simp [FailsafeCheck, hm]
      rw [hc] at htrue
      exact absurd htrue (by decide)
    | false =>
      have hc : FailsafeCheck state config sys = (true, state,
          { world := sys.world
            trace := sys.trace ++ [Event.log logging.Level.debug
              "core/failsafe: the failsafe check passes, scaling evaluations and operations will be permitted."] }) := by
        simp [FailsafeCheck, hm, logging.Debug, hstr]
      rw [hc, emitted_append]
      rfl
  · intro hfalse
    cases hm : state.FailsafeMode with
    | true =>
      have hc : FailsafeCheck state config sys = (false, state, sys) := by
        simp [FailsafeCheck, hm]
      rw [hc]
      simp [emitted, logLines]
    | false =>
      have hc : (FailsafeCheck state config sys).1 = true := by
        simp [FailsafeCheck, hm]
      rw [hc] at hfalse
      exact absurd hfalse (by decide)

theorem failsafe_log_lines_witness :
    logLines (emitted demoSys
        (SetFailsafeMode (demoState true) (demoConfig ["pager"] keepingStore) true
          demoSys).2.2) =
        [Event.log logging.Level.warning
          "core/failsafe: Replicator has been placed in failsafe mode. No scaling evaluations or operations will be permitted from any running copies of Replicator."] ∧
      logLines (emitted demoSys
        (SetFailsafeMode { demoState true with FailsafeModeAdmin := true }
          (demoConfig ["pager"] keepingStore) false demoSys).2.2) = [] ∧
      logLines (emitted demoSys
        (FailsafeCheck (demoState false) (demoConfig ["pager"] keepingStore) demoSys).2.2) =
        [Event.log logging.Level.debug
          "core/failsafe: the failsafe check passes, scaling evaluations and operations will be permitted."] ∧
      logLines (emitted demoSys
        (FailsafeCheck (demoState true) (demoConfig ["pager"] keepingStore) demoSys).2.2) =
        [] :=
  ⟨(failsafe_log_lines (demoState true) (demoConfig ["pager"] keepingStore) true demoSys).1,
    (failsafe_log_lines { demoState true with FailsafeModeAdmin := true }
      (demoConfig ["pager"] keepingStore) false demoSys).1,
    (failsafe_log_lines (demoState false) (demoConfig ["pager"] keepingStore) true
      demoSys).2.1 rfl,
    (failsafe_log_lines (demoState true) (demoConfig ["pager"] keepingStore) true
      demoSys).2.2 rfl⟩

end replicator
